import Mathlib

/-!
Verification of the real-time event distribution layer of the MEV searcher
dashboard repository.

The concrete per-topic consumer handlers, the HTTP ingestion endpoint and the
`Strategy.success_rate` property are embedded directly from the Python source
(`src/websocket/consumers.py`, `src/api/views.py`, `src/dashboard/models.py`).
The topic registry and broadcast dispatcher that the consumers delegate to live
in the external channel-layer library, outside this repository's source tree;
those components are modelled from the specification (each such definition is
marked `Modelled from the spec:` in its doc comment).
-/

namespace MevSearcher

/-- An inbound channel-layer event as seen by a consumer handler: a dict with a
`type` key (the handler-dispatch tag) and a `data` key (the payload).  Payloads
are structured data treated as a black box by the core; they are modelled as
strings, which the core never inspects or transforms. -/
structure ChannelEvent where
  type : String
  data : String
  deriving DecidableEq, Repr

/-- The outbound wire message each consumer serializes to JSON and writes to
the WebSocket: exactly two fields, `type` and `data`
(src/websocket/consumers.py builds `{'type': ..., 'data': ...}`). -/
structure OutMessage where
  type : String
  data : String
  deriving DecidableEq, Repr

/-- From src/websocket/consumers.py, `DashboardConsumer.dashboard_update`
(lines 26-31): sends `{'type': event['type'], 'data': event['data']}` — the
inbound event's type tag is copied into the outbound `type` field. -/
def dashboard_update (event : ChannelEvent) : OutMessage :=
  ⟨event.type, event.data⟩

/-- From src/websocket/consumers.py, `TransactionConsumer.transaction_update`
(lines 55-60): sends `{'type': 'transaction', 'data': event['data']}` — the
outbound `type` field is the constant string "transaction", independent of the
inbound event's type tag. -/
def transaction_update (event : ChannelEvent) : OutMessage :=
  ⟨"transaction", event.data⟩

/-- From src/websocket/consumers.py, `MLTrainingConsumer.training_update`
(lines 84-89): sends `{'type': 'training_progress', 'data': event['data']}` —
the outbound `type` field is the constant string "training_progress". -/
def training_update (event : ChannelEvent) : OutMessage :=
  ⟨"training_progress", event.data⟩

/-- A raw event handed to an ingestion entrypoint by an external producer:
`{topic, event_type, payload}`.  A missing (null) event type is `none`. -/
structure RawEvent where
  topic : String
  event_type : Option String
  payload : String
  deriving DecidableEq, Repr

/-- A minimal HTTP response: status code and body, enough to observe what the
DRF view returns. -/
structure ApiResponse where
  status : Nat
  body : String
  deriving DecidableEq, Repr

/-- From src/api/views.py, `DataIngestionView.ingest_transaction`
(lines 38-42): the body is a TODO stub — it unconditionally returns
`Response({"status": "Transaction ingested"}, status=201)`.  It performs no
validation of the request, constructs no event, and never reaches any
dispatcher. -/
def ingest_transaction (_request : RawEvent) : ApiResponse :=
  ⟨201, "Transaction ingested"⟩

/-- From src/dashboard/models.py, `Strategy.success_rate` (lines 129-134):
returns `0.0` when `total_opportunities == 0`, otherwise
`(successful_opportunities / total_opportunities) * 100`.  Both fields are
database integers; Python's true division is modelled exactly over ℚ. -/
def success_rate (successful_opportunities total_opportunities : Int) : Rat :=
  if total_opportunities = 0 then 0
  else ((successful_opportunities : Rat) / (total_opportunities : Rat)) * 100

/-- Lifecycle state of a connection session (§3):
Connecting → Open → Closing → Closed, no transition reversible. -/
inductive SessionState where
  | Connecting
  | Open
  | Closing
  | Closed
  deriving DecidableEq, Repr

/-- A connection session (§3): unique session id, the single topic it joined at
connect time, a lifecycle state, and its send capability.  `sendOk` models the
behavior of the session's underlying transport: `false` is a subscriber whose
`send` fails on every attempt. -/
structure Session where
  sid : String
  topic : String
  state : SessionState
  sendOk : Bool
  deriving DecidableEq, Repr

/-- The Topic Registry contents: sessions, each tagged with the topic it is
registered under.  Snapshot iteration order is the list order. -/
abbrev Registry := List Session

inductive RegError where
  | DuplicateSession
  deriving DecidableEq, Repr

inductive IngestError where
  | MalformedEvent
  deriving DecidableEq, Repr

/-- Modelled from the spec: §4.1 Topic Registry `register(topic, session)` —
the concrete registry is the external channel layer's group bookkeeping
(`channel_layer.group_add` in src/websocket/consumers.py), not in this
repository's source.  Adds the session under its topic; fails with
`DuplicateSession` if the session id already exists under any topic, leaving
the registry untouched. -/
def register (r : Registry) (sess : Session) : Except RegError Registry :=
  if ∃ t ∈ r, t.sid = sess.sid then Except.error RegError.DuplicateSession
  else Except.ok (r ++ [sess])

/-- Modelled from the spec: §4.1 Topic Registry `unregister(topic, session_id)`
— the concrete registry is the external channel layer's group bookkeeping
(`channel_layer.group_discard` in src/websocket/consumers.py), not in this
repository's source.  Removes the entry; a total function, so it always
returns successfully — a no-op when the entry is already absent. -/
def unregister (r : Registry) (topic sid : String) : Registry :=
  r.filter fun t => decide (¬(t.topic = topic ∧ t.sid = sid))

/-- A validated event (§3): destination topic, event type tag, payload. -/
structure Event where
  topic : String
  event_type : String
  payload : String
  deriving DecidableEq, Repr

/-- Modelled from the spec: §4.4 Ingestion Entrypoint validation — the
repository's ingestion endpoint is an unimplemented stub, so the contract is
taken from the spec's words.  Requires a non-empty topic and a present
(non-null) event type; fails with `MalformedEvent` otherwise. -/
def validateEvent (raw : RawEvent) : Except IngestError Event :=
  match raw.event_type with
  | none => Except.error IngestError.MalformedEvent
  | some ty =>
    if raw.topic = "" then Except.error IngestError.MalformedEvent
    else Except.ok ⟨raw.topic, ty, raw.payload⟩

/-- From src/websocket/routing.py: the three WebSocket endpoints bind one
consumer class to each topic — `ws/dashboard/` to `DashboardConsumer`,
`ws/transactions/` to `TransactionConsumer`, `ws/ml-training/` to
`MLTrainingConsumer`; no endpoint exists for any other topic.  The returned
handler is that consumer's group-message handler. -/
def routeConsumer (topic : String) : Option (ChannelEvent → OutMessage) :=
  if topic = "dashboard" then some dashboard_update
  else if topic = "transactions" then some transaction_update
  else if topic = "ml-training" then some training_update
  else none

/-- One delivery made to a session: the receiving session's id, the topic that
session is registered under, the topic the event was published to, and the
outbound wire message produced by the session's consumer handler. -/
structure Delivery where
  sid : String
  sessionTopic : String
  eventTopic : String
  message : OutMessage
  deriving DecidableEq, Repr

/-- Modelled from the spec: one `send` attempt of §4.3's dispatch loop.  A
session receives the event only if it subscribes to the event's topic, is in
state Open (§4.2: `send` on a Closed session fails fast with `SessionClosed`)
and its transport send succeeds; a failed send produces no delivery and is
collected as a per-subscriber failure, never escalated. -/
def deliverTo (e : Event) (sess : Session) : List Delivery :=
  if sess.topic = e.topic ∧ sess.state = SessionState.Open ∧ sess.sendOk then
    match routeConsumer sess.topic with
    | some handler => [⟨sess.sid, sess.topic, e.topic, handler ⟨e.event_type, e.payload⟩⟩]
    | none => []
  else []

/-- Modelled from the spec: §4.3 Broadcast Dispatcher `publish(event)` — looks
up the subscribers snapshot and attempts one send per session in snapshot
order, collecting per-session failures without aborting the loop.  The result
is the list of deliveries actually made, in order. -/
def publish (r : Registry) (e : Event) : List Delivery :=
  r.flatMap (deliverTo e)

/-- The state of the distribution layer: the Topic Registry plus the
chronological log of every delivery made so far. -/
structure SysState where
  registry : Registry
  log : List Delivery
  deriving DecidableEq, Repr

/-- A consumer `connect` (src/websocket/consumers.py lines 8-17 and its two
clones): the new session joins its topic's group in state Open; registration
failure is surfaced to the caller and leaves the state unchanged. -/
def SysState.connect (s : SysState) (topic sid : String) (sendOk : Bool) :
    SysState × Option RegError :=
  match register s.registry ⟨sid, topic, SessionState.Open, sendOk⟩ with
  | Except.ok r => (⟨r, s.log⟩, none)
  | Except.error err => (s, some err)

/-- A consumer `disconnect` (src/websocket/consumers.py lines 19-24 and its
two clones): the session leaves its topic's group via `unregister`. -/
def SysState.disconnect (s : SysState) (topic sid : String) : SysState :=
  ⟨unregister s.registry topic sid, s.log⟩

/-- Modelled from the spec: §4.4 `ingest(raw_event)` — validates the raw event
and, on success, publishes the resulting event; a validation failure reaches
no dispatcher and changes nothing. -/
def SysState.ingest (s : SysState) (raw : RawEvent) : Except IngestError SysState :=
  match validateEvent raw with
  | Except.error err => Except.error err
  | Except.ok e => Except.ok ⟨s.registry, s.log ++ publish s.registry e⟩

/-- The states reachable from the empty system by connects, disconnects and
successful ingests (a failed connect or ingest leaves the state unchanged, so
those transitions add no new states). -/
inductive Reachable : SysState → Prop where
  | init : Reachable ⟨[], []⟩
  | connect (s : SysState) (topic sid : String) (sendOk : Bool) :
      Reachable s → Reachable (s.connect topic sid sendOk).1
  | disconnect (s : SysState) (topic sid : String) :
      Reachable s → Reachable (s.disconnect topic sid)
  | ingest (s s' : SysState) (raw : RawEvent) :
      Reachable s → s.ingest raw = Except.ok s' → Reachable s'

/-- C9: for every inbound channel-layer event, the outbound `type` field is the
constant "transaction" for the transactions consumer and the constant
"training_progress" for the ml-training consumer, independent of the inbound
event's type tag; only the dashboard consumer copies the inbound type tag into
the outbound `type` field. -/
theorem outbound_type_tags (event : ChannelEvent) :
    (transaction_update event).type = "transaction" ∧
    (training_update event).type = "training_progress" ∧
    (dashboard_update event).type = event.type :=
  ⟨rfl, rfl, rfl⟩

/-- C10: `Strategy.success_rate` returns 0.0 when `total_opportunities` is 0,
and otherwise `(successful_opportunities / total_opportunities) * 100`; the
division only occurs in the guarded branch, where the divisor is nonzero. -/
theorem success_rate_guarded (s t : Int) :
    success_rate s 0 = 0 ∧
    (t ≠ 0 → success_rate s t = ((s : Rat) / (t : Rat)) * 100) := by
  constructor
  · simp [success_rate]
  · intro ht
    simp [success_rate, ht]

/-- Witness for C10 at a concrete strategy record: 3 successes out of 0
opportunities yields rate 0, and 3 successes out of 4 opportunities yields
(3/4)·100 = 75. -/
theorem success_rate_guarded_witness :
    success_rate 3 0 = 0 ∧ success_rate 3 4 = 75 := by
  refine ⟨(success_rate_guarded 3 4).1, ?_⟩
  rw [(success_rate_guarded 3 4).2 (by decide)]
  norm_num

/-- C2 (code divergence): the repository's ingestion endpoint
`DataIngestionView.ingest_transaction` is an unimplemented stub.  Called with
an empty topic, or with a missing (null) event type, it does not fail with
`MalformedEvent`: it returns the HTTP 201 success response
`{"status": "Transaction ingested"}` in both cases, having performed no
validation. -/
theorem ingest_transaction_stub_accepts_malformed :
    ingest_transaction ⟨"", some "transaction", "x"⟩ = ⟨201, "Transaction ingested"⟩ ∧
    ingest_transaction ⟨"transactions", none, "x"⟩ = ⟨201, "Transaction ingested"⟩ :=
  ⟨rfl, rfl⟩

/-- Every delivery produced by one dispatch `send` carries the session's id,
the session's topic, the event's topic, and matching session/event topics. -/
theorem deliverTo_fields (e : Event) (sess : Session) (d : Delivery)
    (hd : d ∈ deliverTo e sess) :
    d.sid = sess.sid ∧ d.sessionTopic = sess.topic ∧ d.eventTopic = e.topic ∧
      d.sessionTopic = d.eventTopic := by
  unfold deliverTo at hd
  split at hd
  · next hcond =>
    split at hd
    · simp only [List.mem_singleton] at hd
      subst hd
      exact ⟨rfl, rfl, rfl, hcond.1⟩
    · simp at hd
  · simp at hd

/-- A session subscribed to the event's topic, in state Open, with a working
transport and a routed consumer, receives exactly one delivery: the consumer
handler's output message. -/
theorem deliverTo_pos (e : Event) (sess : Session) (handler : ChannelEvent → OutMessage)
    (htop : sess.topic = e.topic) (hst : sess.state = SessionState.Open)
    (hok : sess.sendOk = true) (hro : routeConsumer sess.topic = some handler) :
    deliverTo e sess = [⟨sess.sid, sess.topic, e.topic, handler ⟨e.event_type, e.payload⟩⟩] := by
  unfold deliverTo
  rw [if_pos ⟨htop, hst, by simp [hok]⟩, hro]

/-- A session whose transport send always fails receives no delivery. -/
theorem deliverTo_sendFail (e : Event) (sess : Session) (hfail : sess.sendOk = false) :
    deliverTo e sess = [] := by
  unfold deliverTo
  rw [if_neg]
  intro hcond
  rw [hfail] at hcond
  exact Bool.false_ne_true hcond.2.2

/-- Every delivery of a publish call goes to a session in the registry
snapshot. -/
theorem publish_mem (r : Registry) (e : Event) (d : Delivery) (hd : d ∈ publish r e) :
    ∃ sess ∈ r, d.sid = sess.sid := by
  unfold publish at hd
  obtain ⟨sess, hsess, hdd⟩ := List.mem_flatMap.mp hd
  exact ⟨sess, hsess, (deliverTo_fields e sess d hdd).1⟩

/-- When session ids in the registry are distinct, the deliveries of one
publish call addressed to a given session are exactly that session's own
dispatch result, in dispatch order. -/
theorem publish_filter_sid (r : Registry) (e : Event) (sess : Session)
    (hmem : sess ∈ r) (hnd : (r.map Session.sid).Nodup) :
    (publish r e).filter (fun d => decide (d.sid = sess.sid)) = deliverTo e sess := by
  induction r with
  | nil => cases hmem
  | cons head tail ih =>
    rw [List.map_cons, List.nodup_cons] at hnd
    unfold publish
    rw [List.flatMap_cons, List.filter_append]
    rcases List.mem_cons.mp hmem with heq | htail
    · subst heq
      have h1 : (deliverTo e sess).filter (fun d => decide (d.sid = sess.sid)) =
          deliverTo e sess := by
        rw [List.filter_eq_self]
        intro d hd
        simp [(deliverTo_fields e sess d hd).1]
      have h2 : (tail.flatMap (deliverTo e)).filter (fun d => decide (d.sid = sess.sid)) =
          [] := by
        rw [List.filter_eq_nil_iff]
        intro d hd
        obtain ⟨t, ht, hdt⟩ := List.mem_flatMap.mp hd
        have hds := (deliverTo_fields e t d hdt).1
        simp only [decide_eq_true_eq]
        intro hcontra
        exact hnd.1 (by rw [← hcontra, hds]; exact List.mem_map_of_mem Session.sid ht)
      rw [h1, h2, List.append_nil]
    · have hne : head.sid ≠ sess.sid := by
        intro hcontra
        exact hnd.1 (hcontra ▸ List.mem_map_of_mem Session.sid htail)
      have h1 : (deliverTo e head).filter (fun d => decide (d.sid = sess.sid)) = [] := by
        rw [List.filter_eq_nil_iff]
        intro d hd
        have hds := (deliverTo_fields e head d hd).1
        simp only [decide_eq_true_eq]
        intro hcontra
        exact hne (hds.symm.trans hcontra)
      rw [h1, List.nil_append]
      exact ih htail hnd.2

/-- C3: for every registry state and every session id already registered under
some topic, a second register call with that same session id — under any
topic, equal or different — fails with `DuplicateSession`, and the state after
the failed call equals the state before it. -/
theorem register_duplicate_rejected (s : SysState) (topic sid : String) (sendOk : Bool)
    (h : ∃ t ∈ s.registry, t.sid = sid) :
    (s.connect topic sid sendOk).2 = some RegError.DuplicateSession ∧
      (s.connect topic sid sendOk).1 = s := by
  unfold SysState.connect register
  rw [if_pos h]
  exact ⟨rfl, rfl⟩

/-- Witness for C3: with "s1" registered under "dashboard", a second connect
for "s1" under "transactions" fails with `DuplicateSession` and leaves the
state untouched. -/
theorem register_duplicate_rejected_witness :
    ((⟨[⟨"s1", "dashboard", SessionState.Open, true⟩], []⟩ : SysState).connect
        "transactions" "s1" true).2 = some RegError.DuplicateSession ∧
      ((⟨[⟨"s1", "dashboard", SessionState.Open, true⟩], []⟩ : SysState).connect
        "transactions" "s1" true).1 =
        ⟨[⟨"s1", "dashboard", SessionState.Open, true⟩], []⟩ :=
  register_duplicate_rejected _ "transactions" "s1" true
    ⟨⟨"s1", "dashboard", SessionState.Open, true⟩, List.mem_singleton.mpr rfl, rfl⟩

/-- C7: `unregister` on an entry absent from the registry is a no-op — and it
always returns (it is a total function, so it never signals an error); calling
it again for the same topic and session id leaves the registry in the same
final state, so disconnect cleanup is idempotent. -/
theorem unregister_absent_noop_idempotent (r : Registry) (topic sid : String) :
    ((∀ t ∈ r, ¬(t.topic = topic ∧ t.sid = sid)) → unregister r topic sid = r) ∧
      unregister (unregister r topic sid) topic sid = unregister r topic sid := by
  constructor
  · intro h
    rw [unregister, List.filter_eq_self]
    intro t ht
    simp only [decide_eq_true_eq]
    exact h t ht
  · rw [unregister, List.filter_eq_self]
    intro t ht
    exact (List.mem_filter.mp ht).2

/-- Witness for C7: "s9" is absent from a one-entry registry, so unregistering
it changes nothing, and a repeated unregister gives the same final state. -/
theorem unregister_absent_noop_idempotent_witness :
    unregister [⟨"s1", "dashboard", SessionState.Open, true⟩] "transactions" "s9" =
        [⟨"s1", "dashboard", SessionState.Open, true⟩] ∧
      unregister
          (unregister [⟨"s1", "dashboard", SessionState.Open, true⟩] "transactions" "s9")
          "transactions" "s9" =
        unregister [⟨"s1", "dashboard", SessionState.Open, true⟩] "transactions" "s9" :=
  ⟨(unregister_absent_noop_idempotent _ "transactions" "s9").1 (by decide),
    (unregister_absent_noop_idempotent _ "transactions" "s9").2⟩

/-- C5: in every reachable state, every session appears in the Topic Registry
under at most one topic (session ids are distinct, and each carries a single
topic), only while in state Open, and every delivery ever made carried the
same topic the receiving session registered for. -/
theorem reachable_invariants (s : SysState) (h : Reachable s) :
    (s.registry.map Session.sid).Nodup ∧
      (∀ sess ∈ s.registry, sess.state = SessionState.Open) ∧
      (∀ d ∈ s.log, d.sessionTopic = d.eventTopic) := by
  induction h with
  | init =>
    exact ⟨List.nodup_nil, fun sess hs => absurd hs (List.not_mem_nil sess),
      fun d hd => absurd hd (List.not_mem_nil d)⟩
  | connect s topic sid sendOk _ ih =>
    by_cases hc : ∃ t ∈ s.registry, t.sid = sid
    · have hstep : s.connect topic sid sendOk = (s, some RegError.DuplicateSession) := by
        unfold SysState.connect register
        rw [if_pos hc]
      rw [hstep]
      exact ih
    · have hstep : s.connect topic sid sendOk =
          (⟨s.registry ++ [⟨sid, topic, SessionState.Open, sendOk⟩], s.log⟩, none) := by
        unfold SysState.connect register
        rw [if_neg hc]
      rw [hstep]
      refine ⟨?_, ?_, ih.2.2⟩
      · rw [List.map_append, List.nodup_append]
        refine ⟨ih.1, List.nodup_singleton sid, ?_⟩
        intro a ha hb
        rw [List.map_singleton, List.mem_singleton] at hb
        subst hb
        obtain ⟨t, ht, hts⟩ := List.mem_map.mp ha
        exact hc ⟨t, ht, hts⟩
      · intro sess hs
        rcases List.mem_append.mp hs with h1 | h2
        · exact ih.2.1 sess h1
        · rw [List.mem_singleton] at h2
          subst h2
          rfl
  | disconnect s topic sid _ ih =>
    refine ⟨?_, ?_, ih.2.2⟩
    · exact List.Nodup.sublist (List.Sublist.map _ (List.filter_sublist _)) ih.1
    · intro sess hs
      exact ih.2.1 sess (List.mem_filter.mp hs).1
  | ingest s s' raw _ hok ih =>
    unfold SysState.ingest at hok
    cases hval : validateEvent raw with
    | error err =>
      rw [hval] at hok
      cases hok
    | ok e =>
      rw [hval] at hok
      injection hok with hok'
      subst hok'
      refine ⟨ih.1, ih.2.1, ?_⟩
      intro d hd
      rcases List.mem_append.mp hd with h1 | h2
      · exact ih.2.2 d h1
      · obtain ⟨sess, hsess, hdd⟩ := List.mem_flatMap.mp h2
        exact (deliverTo_fields e sess d hdd).2.2.2

/-- Witness for C5 at a concrete reachable state: connect "s1" on
"transactions" starting from the empty system, then check all three
invariants. -/
theorem reachable_invariants_witness :
    ((((⟨[], []⟩ : SysState).connect "transactions" "s1" true).1.registry.map
        Session.sid).Nodup ∧
      (∀ sess ∈ ((⟨[], []⟩ : SysState).connect "transactions" "s1" true).1.registry,
        sess.state = SessionState.Open) ∧
      (∀ d ∈ ((⟨[], []⟩ : SysState).connect "transactions" "s1" true).1.log,
        d.sessionTopic = d.eventTopic)) :=
  reachable_invariants _ (Reachable.connect ⟨[], []⟩ "transactions" "s1" true Reachable.init)

/-- Variant of `publish_filter_sid` with the session id named explicitly. -/
theorem publish_filter_sid_eq (r : Registry) (e : Event) (sess : Session) (sid : String)
    (hmem : sess ∈ r) (hnd : (r.map Session.sid).Nodup) (hsid : sess.sid = sid) :
    (publish r e).filter (fun d => decide (d.sid = sid)) = deliverTo e sess := by
  subst hsid
  exact publish_filter_sid r e sess hmem hnd

/-- C4: a subscriber whose `send` fails on every attempt receives nothing, but
a second, healthy subscriber of the same topic still receives the event in the
same publish call, and the per-subscriber failure never propagates: the
`ingest` call itself returns success. -/
theorem failing_subscriber_isolated (s : SysState) (raw : RawEvent) (e : Event)
    (s1 s2 : Session) (handler : ChannelEvent → OutMessage)
    (hval : validateEvent raw = Except.ok e)
    (h1 : s1 ∈ s.registry) (h2 : s2 ∈ s.registry)
    (hnd : (s.registry.map Session.sid).Nodup)
    (hfail : s1.sendOk = false)
    (ht2 : s2.topic = e.topic) (hst2 : s2.state = SessionState.Open)
    (hok2 : s2.sendOk = true) (hroute : routeConsumer s2.topic = some handler) :
    s.ingest raw = Except.ok ⟨s.registry, s.log ++ publish s.registry e⟩ ∧
      (publish s.registry e).filter (fun d => decide (d.sid = s1.sid)) = [] ∧
      ⟨s2.sid, s2.topic, e.topic, handler ⟨e.event_type, e.payload⟩⟩ ∈
        publish s.registry e := by
  refine ⟨?_, ?_, ?_⟩
  · unfold SysState.ingest
    rw [hval]
  · rw [publish_filter_sid_eq s.registry e s1 s1.sid h1 hnd rfl]
    exact deliverTo_sendFail e s1 hfail
  · unfold publish
    rw [List.mem_flatMap]
    refine ⟨s2, h2, ?_⟩
    rw [deliverTo_pos e s2 handler ht2 hst2 hok2 hroute]
    exact List.mem_singleton.mpr rfl

/-- Witness for C4: subscribers "s1" (always-failing send) and "s2" (healthy)
both on topic "transactions"; ingesting one transaction event succeeds, "s1"
receives nothing, and "s2" receives the event. -/
theorem failing_subscriber_isolated_witness :
    (⟨[⟨"s1", "transactions", SessionState.Open, false⟩,
        ⟨"s2", "transactions", SessionState.Open, true⟩], []⟩ : SysState).ingest
        ⟨"transactions", some "transaction", "p"⟩ =
      Except.ok
        ⟨[⟨"s1", "transactions", SessionState.Open, false⟩,
          ⟨"s2", "transactions", SessionState.Open, true⟩],
          [] ++ publish
            [⟨"s1", "transactions", SessionState.Open, false⟩,
             ⟨"s2", "transactions", SessionState.Open, true⟩]
            ⟨"transactions", "transaction", "p"⟩⟩ ∧
      (publish
          [⟨"s1", "transactions", SessionState.Open, false⟩,
           ⟨"s2", "transactions", SessionState.Open, true⟩]
          ⟨"transactions", "transaction", "p"⟩).filter
        (fun d => decide (d.sid = "s1")) = [] ∧
      (⟨"s2", "transactions", "transactions", transaction_update ⟨"transaction", "p"⟩⟩ :
          Delivery) ∈
        publish
          [⟨"s1", "transactions", SessionState.Open, false⟩,
           ⟨"s2", "transactions", SessionState.Open, true⟩]
          ⟨"transactions", "transaction", "p"⟩ :=
  failing_subscriber_isolated
    ⟨[⟨"s1", "transactions", SessionState.Open, false⟩,
      ⟨"s2", "transactions", SessionState.Open, true⟩], []⟩
    ⟨"transactions", some "transaction", "p"⟩
    ⟨"transactions", "transaction", "p"⟩
    ⟨"s1", "transactions", SessionState.Open, false⟩
    ⟨"s2", "transactions", SessionState.Open, true⟩
    transaction_update rfl (by simp) (by simp) (by simp) rfl rfl rfl rfl rfl

/-- C1: a session open on topic "transactions" whose event with event type
"transaction" and payload `p` is ingested to "transactions" receives exactly
one structured message, with `type` the string "transaction" and `data` the
payload `p` passed through unmodified; the ingest call succeeds. -/
theorem transactions_end_to_end (s : SysState) (sid p : String)
    (hmem : (⟨sid, "transactions", SessionState.Open, true⟩ : Session) ∈ s.registry)
    (hnd : (s.registry.map Session.sid).Nodup) :
    ∃ s', s.ingest ⟨"transactions", some "transaction", p⟩ = Except.ok s' ∧
      s'.log.filter (fun d => decide (d.sid = sid)) =
        s.log.filter (fun d => decide (d.sid = sid)) ++
          [⟨sid, "transactions", "transactions", ⟨"transaction", p⟩⟩] := by
  refine ⟨⟨s.registry,
    s.log ++ publish s.registry ⟨"transactions", "transaction", p⟩⟩, ?_, ?_⟩
  · unfold SysState.ingest validateEvent
    rfl
  · show (s.log ++ _).filter _ = _
    rw [List.filter_append]
    congr 1
    rw [publish_filter_sid_eq s.registry ⟨"transactions", "transaction", p⟩
        ⟨sid, "transactions", SessionState.Open, true⟩ sid hmem hnd rfl]
    rw [deliverTo_pos ⟨"transactions", "transaction", p⟩
        ⟨sid, "transactions", SessionState.Open, true⟩ transaction_update rfl rfl rfl rfl]
    rfl

/-- Witness for C1: session "s1" open on "transactions"; ingesting
`{topic: "transactions", event_type: "transaction", payload: "sig-abc"}`
delivers exactly `{"type": "transaction", "data": "sig-abc"}` to "s1". -/
theorem transactions_end_to_end_witness :
    ∃ s', (⟨[⟨"s1", "transactions", SessionState.Open, true⟩], []⟩ : SysState).ingest
        ⟨"transactions", some "transaction", "sig-abc"⟩ = Except.ok s' ∧
      s'.log.filter (fun d => decide (d.sid = "s1")) =
        ([] : List Delivery).filter (fun d => decide (d.sid = "s1")) ++
          [⟨"s1", "transactions", "transactions", ⟨"transaction", "sig-abc"⟩⟩] :=
  transactions_end_to_end
    ⟨[⟨"s1", "transactions", SessionState.Open, true⟩], []⟩ "s1" "sig-abc"
    (List.mem_singleton.mpr rfl) (by simp)

/-- C6: after a session is closed (disconnected), ingesting an event that
would previously have been delivered to it fires no callback on that session —
every delivery addressed to its id in the new state already existed before —
and raises no error to the ingester. -/
theorem no_send_after_close (s : SysState) (topic sid : String) (raw : RawEvent) (e : Event)
    (hval : validateEvent raw = Except.ok e)
    (hsid : ∀ sess ∈ s.registry, sess.sid = sid → sess.topic = topic) :
    ∃ s', (s.disconnect topic sid).ingest raw = Except.ok s' ∧
      ∀ d ∈ s'.log, d.sid = sid → d ∈ s.log := by
  refine ⟨⟨unregister s.registry topic sid,
    s.log ++ publish (unregister s.registry topic sid) e⟩, ?_, ?_⟩
  · unfold SysState.disconnect SysState.ingest
    rw [hval]
  · intro d hd hds
    rcases List.mem_append.mp hd with h1 | h2
    · exact h1
    · exfalso
      obtain ⟨sess, hsess, hdsid⟩ := publish_mem _ e d h2
      have hmf := List.mem_filter.mp hsess
      have hsid2 : sess.sid = sid := hdsid.symm.trans hds
      have htop := hsid sess hmf.1 hsid2
      have hpred := hmf.2
      simp only [decide_eq_true_eq] at hpred
      exact hpred ⟨htop, hsid2⟩

/-- Witness for C6: close "s1" (the only subscriber of "transactions"), then
ingest the same transaction event again; the ingest succeeds and no delivery
to "s1" is made. -/
theorem no_send_after_close_witness :
    ∃ s', ((⟨[⟨"s1", "transactions", SessionState.Open, true⟩], []⟩ : SysState).disconnect
          "transactions" "s1").ingest ⟨"transactions", some "transaction", "sig-abc"⟩ =
        Except.ok s' ∧
      ∀ d ∈ s'.log, d.sid = "s1" →
        d ∈ (⟨[⟨"s1", "transactions", SessionState.Open, true⟩], []⟩ : SysState).log :=
  no_send_after_close ⟨[⟨"s1", "transactions", SessionState.Open, true⟩], []⟩
    "transactions" "s1" ⟨"transactions", some "transaction", "sig-abc"⟩
    ⟨"transactions", "transaction", "sig-abc"⟩ rfl (by simp)

/-- C8: two sequential publishes (via ingest) of events A then B to one topic
from one producer are observed by a subscriber of that topic, connected
throughout, as A's message followed by B's message — FIFO per topic. -/
theorem fifo_per_topic (s : SysState) (sess : Session) (handler : ChannelEvent → OutMessage)
    (tyA pA tyB pB : String)
    (hmem : sess ∈ s.registry) (hnd : (s.registry.map Session.sid).Nodup)
    (hst : sess.state = SessionState.Open) (hok : sess.sendOk = true)
    (hroute : routeConsumer sess.topic = some handler) (htne : sess.topic ≠ "") :
    ∃ s1 s2,
      s.ingest ⟨sess.topic, some tyA, pA⟩ = Except.ok s1 ∧
      s1.ingest ⟨sess.topic, some tyB, pB⟩ = Except.ok s2 ∧
      s2.log.filter (fun d => decide (d.sid = sess.sid)) =
        s.log.filter (fun d => decide (d.sid = sess.sid)) ++
          [⟨sess.sid, sess.topic, sess.topic, handler ⟨tyA, pA⟩⟩,
           ⟨sess.sid, sess.topic, sess.topic, handler ⟨tyB, pB⟩⟩] := by
  have hvalA : validateEvent ⟨sess.topic, some tyA, pA⟩ =
      Except.ok ⟨sess.topic, tyA, pA⟩ := by
    show (if sess.topic = "" then (Except.error IngestError.MalformedEvent : Except IngestError Event)
      else Except.ok (⟨sess.topic, tyA, pA⟩ : Event)) = Except.ok (⟨sess.topic, tyA, pA⟩ : Event)
    rw [if_neg htne]
  have hvalB : validateEvent ⟨sess.topic, some tyB, pB⟩ =
      Except.ok ⟨sess.topic, tyB, pB⟩ := by
    show (if sess.topic = "" then (Except.error IngestError.MalformedEvent : Except IngestError Event)
      else Except.ok (⟨sess.topic, tyB, pB⟩ : Event)) = Except.ok (⟨sess.topic, tyB, pB⟩ : Event)
    rw [if_neg htne]
  refine ⟨⟨s.registry, s.log ++ publish s.registry ⟨sess.topic, tyA, pA⟩⟩,
    ⟨s.registry, (s.log ++ publish s.registry ⟨sess.topic, tyA, pA⟩) ++
      publish s.registry ⟨sess.topic, tyB, pB⟩⟩, ?_, ?_, ?_⟩
  · unfold SysState.ingest
    rw [hvalA]
  · unfold SysState.ingest
    rw [hvalB]
  · show ((s.log ++ _) ++ _).filter _ = _
    rw [List.filter_append, List.filter_append,
      publish_filter_sid_eq s.registry ⟨sess.topic, tyA, pA⟩ sess sess.sid hmem hnd rfl,
      publish_filter_sid_eq s.registry ⟨sess.topic, tyB, pB⟩ sess sess.sid hmem hnd rfl,
      deliverTo_pos _ _ handler rfl hst hok hroute,
      deliverTo_pos _ _ handler rfl hst hok hroute,
      List.append_assoc]
    rfl

/-- Witness for C8: one subscriber "s1" of "transactions" connected
throughout; publishing "A" then "B" yields exactly the messages for "A" then
"B", in that order. -/
theorem fifo_per_topic_witness :
    ∃ s1 s2,
      (⟨[⟨"s1", "transactions", SessionState.Open, true⟩], []⟩ : SysState).ingest
          ⟨"transactions", some "transaction", "A"⟩ = Except.ok s1 ∧
      s1.ingest ⟨"transactions", some "transaction", "B"⟩ = Except.ok s2 ∧
      s2.log.filter (fun d => decide (d.sid = "s1")) =
        ([] : List Delivery).filter (fun d => decide (d.sid = "s1")) ++
          [⟨"s1", "transactions", "transactions", transaction_update ⟨"transaction", "A"⟩⟩,
           ⟨"s1", "transactions", "transactions", transaction_update ⟨"transaction", "B"⟩⟩] :=
  fifo_per_topic ⟨[⟨"s1", "transactions", SessionState.Open, true⟩], []⟩
    ⟨"s1", "transactions", SessionState.Open, true⟩ transaction_update
    "transaction" "A" "transaction" "B"
    (List.mem_singleton.mpr rfl) (by simp) rfl rfl rfl (by decide)

end MevSearcher
